import Mathlib

/-
Verification of the Attio synchronizer script (src/unnamed/part_000).

The script talks to an external CRM ("Attio") through a generated SDK and to
the host runtime (Date parsing, file system, console).  We embed it shallowly:

* the SDK and the host date parser are an explicit environment `ApiEnv` of
  oracles (a call either resolves with a response or rejects with an error
  carrying a `data` payload, exactly the shape the script reads in `catch`);
* each async function of the script becomes a Lean function from the
  environment to the ordered list of external effects it performs plus a
  JavaScript-style outcome (a returned value or a thrown exception);
* `Date.prototype.toISOString` and `JSON.stringify(x, null, 2)` are
  deterministic host functions specified by ECMA-262 / the JSON grammar, so
  they are implemented concretely below;
* parsing of non-ISO date strings by `new Date(s)` is host- and
  timezone-dependent, so it stays an oracle `parseDate : String → Option Int`
  returning the epoch milliseconds (an invalid date makes `toISOString`
  throw a RangeError, which we model as the `none` case).
-/

namespace Attio

/-- JSON values, used for opaque SDK responses and error payloads. -/
inductive Json where
  | null : Json
  | bool (b : Bool) : Json
  | num (n : Int) : Json
  | str (s : String) : Json
  | arr (elems : List Json) : Json
  | obj (fields : List (String × Json)) : Json

/-- A rejected SDK call carries an error object whose `data` field the script
logs (`console.error(e.data)` in `assertUser`). -/
structure ApiError where
  data : Json

/-- One element of the `email_addresses` attribute of the person payload. -/
structure EmailAddressEntry where
  email_address : String
  deriving DecidableEq

/-- The structured `name` attribute value of the person payload. -/
structure NameEntry where
  full_name : String
  first_name : String
  last_name : Option String
  deriving DecidableEq

/-- The `last_session` attribute value of the person payload. -/
structure LastSessionValue where
  value : String
  deriving DecidableEq

/-- The `values` object of the person upsert body. -/
structure PersonValues where
  email_addresses : List EmailAddressEntry
  name : List NameEntry
  last_session : LastSessionValue
  deriving DecidableEq

/-- The `data` object of the person upsert body. -/
structure PersonData where
  values : PersonValues
  deriving DecidableEq

/-- The request body passed to `sdk.putV2ObjectsPeopleRecords`. -/
structure PersonPayload where
  data : PersonData
  deriving DecidableEq

/-- The second (metadata) argument of `sdk.putV2ObjectsPeopleRecords`. -/
structure PutOpts where
  matching_attribute : String
  deriving DecidableEq

/-- One element of the `name` attribute of the company payload. -/
structure CompanyNameEntry where
  value : String
  deriving DecidableEq

/-- One element of the `domains` attribute of the company payload. -/
structure CompanyDomainEntry where
  domain : String
  deriving DecidableEq

/-- The `values` object of the company create body. -/
structure CompanyValues where
  name : List CompanyNameEntry
  domains : List CompanyDomainEntry
  deriving DecidableEq

/-- The `data` object of the company create body. -/
structure CompanyData where
  values : CompanyValues
  deriving DecidableEq

/-- The request body passed to `sdk.postV2ObjectsCompaniesRecords`. -/
structure CompanyPayload where
  data : CompanyData
  deriving DecidableEq

/-- The inner body of the company query response: `res.data` has a `data`
field holding the array of company records. -/
structure CompaniesQueryBody where
  data : Json

/-- The resolved value of `sdk.postV2ObjectsCompaniesRecordsQuery`:
`fetchCompanies` reads `res.data.data`. -/
structure CompaniesQueryResponse where
  data : CompaniesQueryBody

/-- External effects the script can perform, in order. -/
inductive Effect where
  | putPeopleRecords (payload : PersonPayload) (opts : PutOpts) : Effect
  | postCompaniesQuery : Effect
  | postCompaniesRecords (payload : CompanyPayload) : Effect
  | deleteCompaniesRecord (record_id : String) : Effect
  | writeFileSync (path : String) (contents : String) : Effect
  | consoleLog (v : Option Json) : Effect
  | consoleError (v : Json) : Effect

/-- A JavaScript exception: either the RangeError thrown by `toISOString` on
an invalid date, or a rejected SDK promise re-raised by `await`. -/
inductive JsThrown where
  | rangeError (msg : String) : JsThrown
  | apiError (e : ApiError) : JsThrown

/-- Outcome of running one of the script's async functions: a returned value
or an exception escaping the function. -/
inductive JsOutcome (α : Type) where
  | returned (v : α) : JsOutcome α
  | thrown (e : JsThrown) : JsOutcome α

/-- The environment: the SDK endpoints the script calls and the host date
parser.  Each endpoint either resolves (`Except.ok`) or rejects
(`Except.error`). -/
structure ApiEnv where
  parseDate : String → Option Int
  putPeopleRecords : PersonPayload → PutOpts → Except ApiError Json
  postCompaniesQuery : Except ApiError CompaniesQueryResponse
  postCompaniesRecords : CompanyPayload → Except ApiError Json
  deleteCompaniesRecord : String → Except ApiError Json

/-- Replace the first occurrence of the (non-empty) pattern `pat` in a
character list by `rep`. -/
def jsReplaceFirstList (pat rep : List Char) : List Char → List Char
  | [] => []
  | x :: xs =>
      if pat.isPrefixOf (x :: xs) then rep ++ (x :: xs).drop pat.length
      else x :: jsReplaceFirstList pat rep xs

/-- JavaScript `s.replace(pat, rep)` with a non-empty string pattern:
replaces only the first occurrence.  Used for the (unused) `attr` binding in
`assertUser` (`email.replace("@", "%40")`, source line 49). -/
def jsReplaceFirst (s pat rep : String) : String :=
  String.mk (jsReplaceFirstList pat.toList rep.toList s.toList)

/-- Split a character list at every occurrence of the character `c`. -/
def splitCharList (c : Char) : List Char → List (List Char)
  | [] => [[]]
  | x :: xs =>
      match splitCharList c xs with
      | [] => [[]]
      | r :: rs => if x = c then [] :: r :: rs else (x :: r) :: rs

/-- JavaScript `s.split(" ")` with the one-character separator used at source
lines 61-62: the list of chunks between occurrences of the space character
(always non-empty; `[""]` for the empty string, empty chunks between
consecutive spaces). -/
def jsSplitSpace (s : String) : List String :=
  (splitCharList ' ' s.toList).map (fun cs => String.mk cs)

/-- Left-pad a numeral to two digits. -/
def pad2 (n : Nat) : String :=
  if n < 10 then "0" ++ toString n else toString n

/-- Left-pad a numeral to three digits. -/
def pad3 (n : Nat) : String :=
  if n < 10 then "00" ++ toString n
  else if n < 100 then "0" ++ toString n
  else toString n

/-- Left-pad a numeral to four digits. -/
def pad4 (n : Nat) : String :=
  if n < 10 then "000" ++ toString n
  else if n < 100 then "00" ++ toString n
  else if n < 1000 then "0" ++ toString n
  else toString n

/-- Left-pad a numeral to six digits. -/
def pad6 (n : Nat) : String :=
  if n < 10 then "00000" ++ toString n
  else if n < 100 then "0000" ++ toString n
  else if n < 1000 then "000" ++ toString n
  else if n < 10000 then "00" ++ toString n
  else if n < 100000 then "0" ++ toString n
  else toString n

/-- ECMA-262 `Date.prototype.toISOString` on a valid time value `ms` (epoch
milliseconds): the UTC calendar fields via the standard civil-from-days
conversion, rendered as `YYYY-MM-DDTHH:MM:SS.sssZ`. -/
def toISOString (ms : Int) : String :=
  let days := ms.fdiv 86400000
  let msOfDay := (ms - days * 86400000).toNat
  let z := days + 719468
  let era := z.fdiv 146097
  let doe := (z - era * 146097).toNat
  let yoe := (doe - doe / 1460 + doe / 36524 - doe / 146096) / 365
  let yMarch : Int := (yoe : Int) + era * 400
  let doy := doe - (365 * yoe + yoe / 4 - yoe / 100)
  let mp := (5 * doy + 2) / 153
  let d := doy - (153 * mp + 2) / 5 + 1
  let m := if mp < 10 then mp + 3 else mp - 9
  let y := if m ≤ 2 then yMarch + 1 else yMarch
  let hh := msOfDay / 3600000
  let mi := msOfDay % 3600000 / 60000
  let ss := msOfDay % 60000 / 1000
  let mmm := msOfDay % 1000
  let yearStr :=
    if 0 ≤ y ∧ y ≤ 9999 then pad4 y.toNat
    else if y < 0 then "-" ++ pad6 (-y).toNat
    else "+" ++ pad6 y.toNat
  yearStr ++ "-" ++ pad2 m ++ "-" ++ pad2 d ++ "T" ++
    pad2 hh ++ ":" ++ pad2 mi ++ ":" ++ pad2 ss ++ "." ++ pad3 mmm ++ "Z"

/-- Escape one character inside a JSON string literal. -/
def jsonEscapeChar (c : Char) : String :=
  if c = '"' then "\\\""
  else if c = '\\' then "\\\\"
  else if c = '\n' then "\\n"
  else if c = '\t' then "\\t"
  else if c = '\r' then "\\r"
  else String.singleton c

/-- Render a JSON string literal with quotes. -/
def jsonQuote (s : String) : String :=
  "\"" ++ String.join (s.toList.map jsonEscapeChar) ++ "\""

/-- Indentation produced by `JSON.stringify(x, null, 2)` at depth `n`:
`2 * n` spaces. -/
def indentStr (n : Nat) : String :=
  String.join (List.replicate n "  ")

mutual

/-- `JSON.stringify(x, null, 2)` at depth `ind`: primitives on one line,
non-empty arrays and objects broken over lines, members indented one level
deeper than the bracket. -/
def stringifyAt : Nat → Json → String
  | _, .null => "null"
  | _, .bool b => if b then "true" else "false"
  | _, .num n => toString n
  | _, .str s => jsonQuote s
  | _, .arr [] => "[]"
  | ind, .arr (x :: xs) =>
      "[\n" ++
        String.intercalate ",\n"
          ((stringifyListAt (ind + 1) (x :: xs)).map
            (fun s => indentStr (ind + 1) ++ s)) ++
      "\n" ++ indentStr ind ++ "]"
  | _, .obj [] => "\x7b\x7d"
  | ind, .obj (f :: fs) =>
      "\x7b\n" ++
        String.intercalate ",\n"
          ((stringifyFieldsAt (ind + 1) (f :: fs)).map
            (fun s => indentStr (ind + 1) ++ s)) ++
      "\n" ++ indentStr ind ++ "\x7d"

/-- Stringify each element of an array at depth `ind`. -/
def stringifyListAt : Nat → List Json → List String
  | _, [] => []
  | ind, x :: xs => stringifyAt ind x :: stringifyListAt ind xs

/-- Stringify each `key: value` member of an object at depth `ind`. -/
def stringifyFieldsAt : Nat → List (String × Json) → List String
  | _, [] => []
  | ind, (k, v) :: fs =>
      (jsonQuote k ++ ": " ++ stringifyAt ind v) :: stringifyFieldsAt ind fs

end

/-- `JSON.stringify(x, null, 2)` as used by `fetchCompanies`. -/
def jsonStringify2 (j : Json) : String := stringifyAt 0 j

/-- The object literal `assertUser` passes to `sdk.putV2ObjectsPeopleRecords`
(source lines 54-70): `email` verbatim in `email_addresses`, `name` split on
the space character with `split(" ")[0]` / `split(" ")[1]` (the index-1 access
is `undefined`, i.e. `none`, when no second element exists; index 0 always
exists since `split` returns a non-empty array), `full_name` the unsplit
string, and `last_session` the ISO serialization `iso`. -/
def personPayload (email name iso : String) : PersonPayload :=
  { data := { values := {
      email_addresses := [{ email_address := email }],
      name := [{ full_name := name,
                 first_name := (jsSplitSpace name).headD "",
                 last_name := (jsSplitSpace name)[1]? }],
      last_session := { value := iso } } } }

/-- The second argument of the upsert call (source line 71). -/
def putOpts : PutOpts := { matching_attribute := "email_addresses" }

/-- `assertUser(email, name, last_session)` (source lines 47-77).  It first
computes the unused `attr` binding (`email.replace("@", "%40")`) and
`new Date(last_session).toISOString()` outside the try block — an unparseable
date throws a RangeError there, before any SDK call.  Inside the try it awaits
the upsert and returns the response; a rejection is caught, its `data` payload
logged with `console.error`, and the function falls off the end, returning
`undefined` (`none`). -/
def assertUser (env : ApiEnv) (email name last_session : String) :
    List Effect × JsOutcome (Option Json) :=
  let attr := jsReplaceFirst email "@" "%40"
  match env.parseDate last_session with
  | none => ([], .thrown (.rangeError "Invalid time value"))
  | some t =>
      let last_session_iso := toISOString t
      let payload := personPayload email name (toISOString t)
      match env.putPeopleRecords payload putOpts with
      | .ok res =>
          ([.putPeopleRecords payload putOpts], .returned (some res))
      | .error e =>
          ([.putPeopleRecords payload putOpts, .consoleError e.data],
           .returned none)

/-- The object literal `createCompany` passes to
`sdk.postV2ObjectsCompaniesRecords` (source lines 29-36). -/
def companyPayload (name domain : String) : CompanyPayload :=
  { data := { values := {
      name := [{ value := name }],
      domains := [{ domain := domain }] } } }

/-- `createCompany(name, domain)` (source lines 28-38): awaits the create
call with no try/catch — a rejection propagates — then logs the full response
and returns `undefined`. -/
def createCompany (env : ApiEnv) (name domain : String) :
    List Effect × JsOutcome (Option Json) :=
  let payload := companyPayload name domain
  match env.postCompaniesRecords payload with
  | .error e => ([.postCompaniesRecords payload], .thrown (.apiError e))
  | .ok res =>
      ([.postCompaniesRecords payload, .consoleLog (some res)],
       .returned none)

/-- `deleteCompany(id)` (source lines 40-45): awaits the delete call with no
try/catch — a rejection propagates — then logs the full response and returns
`undefined`. -/
def deleteCompany (env : ApiEnv) (id : String) :
    List Effect × JsOutcome (Option Json) :=
  match env.deleteCompaniesRecord id with
  | .error e => ([.deleteCompaniesRecord id], .thrown (.apiError e))
  | .ok res =>
      ([.deleteCompaniesRecord id, .consoleLog (some res)], .returned none)

/-- `fetchCompanies()` (source lines 20-26): awaits the company query with no
try/catch — a rejection propagates — then writes
`JSON.stringify(res.data.data, null, 2)` to `./out/companies.json` and
returns `undefined`. -/
def fetchCompanies (env : ApiEnv) : List Effect × JsOutcome (Option Json) :=
  match env.postCompaniesQuery with
  | .error e => ([.postCompaniesQuery], .thrown (.apiError e))
  | .ok res =>
      ([.postCompaniesQuery,
        .writeFileSync "./out/companies.json" (jsonStringify2 res.data.data)],
       .returned none)

/-- One input user record of the batch loop. -/
structure UserRecord where
  email : String
  name : String
  last_session : String

/-- The value bound to the identifier `users` at module scope.  Both
definitions of `users` in the source (lines 3-4, an import and a
`JSON.parse(fs.readFileSync(...))`) are commented out, and no other binding
exists, so the identifier is unbound: `none`. -/
def usersBinding : Option (List UserRecord) := none

/-- Outcome of the module's batch entry point (the IIFE, source lines
91-107): a ReferenceError when an identifier it reads is unbound, normal
completion, or an exception raised out of an iteration. -/
inductive BatchOutcome where
  | referenceError (ident : String) : BatchOutcome
  | completed : BatchOutcome
  | raised (e : JsThrown) : BatchOutcome

/-- One iteration of the batch loop (source lines 100-103): while no prior
iteration has raised, `await assertUser(...)` then `console.log(res)`; an
exception from `assertUser` stops the loop. -/
def runBatchStep (env : ApiEnv) (acc : List Effect × BatchOutcome)
    (user : UserRecord) : List Effect × BatchOutcome :=
  match acc with
  | (tr, .completed) =>
      let r := assertUser env user.email user.name user.last_session
      match r.2 with
      | .returned v => (tr ++ r.1 ++ [.consoleLog v], .completed)
      | .thrown e => (tr ++ r.1, .raised e)
  | stopped => stopped

/-- The batch entry point: `for (const user of users) ...` (source lines
100-103).  Evaluating the loop head first resolves the identifier `users`;
since `usersBinding` is `none` (every definition is commented out), this
fails with a ReferenceError before the first iteration. -/
def runBatch (env : ApiEnv) : List Effect × BatchOutcome :=
  match usersBinding with
  | none => ([], .referenceError "users")
  | some users => users.foldl (runBatchStep env) ([], .completed)

/-- Simulated error payload used by the rejecting oracle environments. -/
def errSimulated : ApiError := { data := Json.str "validation failure" }

/-- Sample resolved response used by the succeeding oracle environments. -/
def okResponse : Json := Json.obj [("ok", Json.bool true)]

/-- Sample company query response: `res.data.data` is a one-element array of
company records. -/
def sampleQueryResponse : CompaniesQueryResponse :=
  { data := { data := Json.arr [Json.obj [("name", Json.str "Nike")]] } }

/-- Concrete host for witnesses: a UTC host whose date parser accepts exactly
the spec's example string `"April 19, 2024, 1:19 PM"` (epoch milliseconds of
2024-04-19T13:19:00Z), and an SDK on which every call resolves. -/
def envAllOk : ApiEnv :=
  { parseDate := fun s =>
      if s = "April 19, 2024, 1:19 PM" then some 1713532740000 else none,
    putPeopleRecords := fun _ _ => .ok okResponse,
    postCompaniesQuery := .ok sampleQueryResponse,
    postCompaniesRecords := fun _ => .ok okResponse,
    deleteCompaniesRecord := fun _ => .ok okResponse }

/-- Concrete host for witnesses: same date parser as `envAllOk`, but every
SDK call rejects with `errSimulated`. -/
def envAllFail : ApiEnv :=
  { parseDate := fun s =>
      if s = "April 19, 2024, 1:19 PM" then some 1713532740000 else none,
    putPeopleRecords := fun _ _ => .error errSimulated,
    postCompaniesQuery := .error errSimulated,
    postCompaniesRecords := fun _ => .error errSimulated,
    deleteCompaniesRecord := fun _ => .error errSimulated }

/-- Whenever the date parses, the first (and only) SDK effect of `assertUser`
is the upsert call with the payload `personPayload email name iso` and the
`email_addresses` matching option, on success and on failure alike. -/
theorem assertUser_first_effect (env : ApiEnv) (email name ls : String)
    (t : Int) (hp : env.parseDate ls = some t) :
    (assertUser env email name ls).1.head? =
      some (.putPeopleRecords (personPayload email name (toISOString t))
        putOpts) := by
  cases h : env.putPeopleRecords (personPayload email name (toISOString t))
      putOpts with
  | ok res => simp [assertUser, hp, h]
  | error e => simp [assertUser, hp, h]

/-- Claim C1: for every input with a parseable `last_session`, if the upsert
call rejects, `assertUser` catches the rejection, logs the error's `data`
payload with `console.error`, raises nothing past the function boundary, and
returns `undefined` (`none`). -/
theorem assertUser_upsert_failure_contained (env : ApiEnv)
    (email name ls : String) (t : Int) (e : ApiError)
    (hp : env.parseDate ls = some t)
    (hput : env.putPeopleRecords (personPayload email name (toISOString t))
      putOpts = .error e) :
    assertUser env email name ls =
      ([.putPeopleRecords (personPayload email name (toISOString t)) putOpts,
        .consoleError e.data],
       .returned none) := by
  simp [assertUser, hp, hput]

/-- Witness for C1: on the all-rejecting host, `assertUser` performs the
upsert call, logs the simulated error's payload, and returns `undefined`. -/
theorem assertUser_upsert_failure_contained_witness :
    assertUser envAllFail "jon@foo.com" "Jane Doe" "April 19, 2024, 1:19 PM" =
      ([.putPeopleRecords
          (personPayload "jon@foo.com" "Jane Doe" (toISOString 1713532740000))
          putOpts,
        .consoleError (Json.str "validation failure")],
       .returned none) :=
  assertUser_upsert_failure_contained envAllFail "jon@foo.com" "Jane Doe"
    "April 19, 2024, 1:19 PM" 1713532740000 errSimulated rfl rfl

/-- Claim C2: for every input whose `last_session` does not parse,
`assertUser` throws the RangeError from `toISOString` before the try block:
the exception escapes the function and the trace is empty, so the upsert
endpoint is never invoked for that record. -/
theorem assertUser_parse_failure_propagates (env : ApiEnv)
    (email name ls : String) (hp : env.parseDate ls = none) :
    assertUser env email name ls =
      ([], .thrown (.rangeError "Invalid time value")) := by
  simp [assertUser, hp]

/-- Witness for C2: on the concrete host, the unparseable string
`"not a date"` makes `assertUser` throw with no SDK effect. -/
theorem assertUser_parse_failure_propagates_witness :
    assertUser envAllOk "jon@foo.com" "Jane Doe" "not a date" =
      ([], .thrown (.rangeError "Invalid time value")) :=
  assertUser_parse_failure_propagates envAllOk "jon@foo.com" "Jane Doe"
    "not a date" rfl

/-- Claim C3: the upsert payload `assertUser` sends maps a two-token name to
`first_name` = first token, `last_name` = second token, `full_name` = the
unsplit string, and a one-token name to `first_name` = that token with
`last_name` absent (`none`). -/
theorem assertUser_name_token_mapping (env : ApiEnv)
    (email name ls : String) (t : Int) (a b : String)
    (hp : env.parseDate ls = some t) :
    (assertUser env email name ls).1.head? =
      some (.putPeopleRecords (personPayload email name (toISOString t))
        putOpts)
    ∧ (jsSplitSpace name = [a, b] →
        (personPayload email name (toISOString t)).data.values.name =
          [{ full_name := name, first_name := a, last_name := some b }])
    ∧ (jsSplitSpace name = [a] →
        (personPayload email name (toISOString t)).data.values.name =
          [{ full_name := name, first_name := a, last_name := none }]) := by
  refine ⟨assertUser_first_effect env email name ls t hp, ?_, ?_⟩
  · intro h
    simp [personPayload, h]
  · intro h
    simp [personPayload, h]

/-- Witness for C3 at `"Jane Doe"` and `"Madonna"` on the concrete host. -/
theorem assertUser_name_token_mapping_witness :
    (assertUser envAllOk "jon@foo.com" "Jane Doe"
        "April 19, 2024, 1:19 PM").1.head? =
      some (.putPeopleRecords
        (personPayload "jon@foo.com" "Jane Doe" (toISOString 1713532740000))
        putOpts)
    ∧ (personPayload "jon@foo.com" "Jane Doe"
        (toISOString 1713532740000)).data.values.name =
        [{ full_name := "Jane Doe", first_name := "Jane",
           last_name := some "Doe" }]
    ∧ (personPayload "jon@foo.com" "Madonna"
        (toISOString 1713532740000)).data.values.name =
        [{ full_name := "Madonna", first_name := "Madonna",
           last_name := none }] :=
  ⟨(assertUser_name_token_mapping envAllOk "jon@foo.com" "Jane Doe"
      "April 19, 2024, 1:19 PM" 1713532740000 "Jane" "Doe" rfl).1,
   (assertUser_name_token_mapping envAllOk "jon@foo.com" "Jane Doe"
      "April 19, 2024, 1:19 PM" 1713532740000 "Jane" "Doe" rfl).2.1
     (by decide),
   (assertUser_name_token_mapping envAllOk "jon@foo.com" "Madonna"
      "April 19, 2024, 1:19 PM" 1713532740000 "Madonna" "X" rfl).2.2
     (by decide)⟩

/-- Claim C4: the upsert request carries the input email verbatim as
`email_addresses[0].email_address` — not the percent-encoded form the
(unused) `attr` binding computes — and its matching attribute is
`"email_addresses"`. -/
theorem assertUser_email_passthrough (env : ApiEnv)
    (email name ls : String) (t : Int)
    (hp : env.parseDate ls = some t) :
    (assertUser env email name ls).1.head? =
      some (.putPeopleRecords (personPayload email name (toISOString t))
        putOpts)
    ∧ (personPayload email name (toISOString t)).data.values.email_addresses =
        [{ email_address := email }]
    ∧ putOpts.matching_attribute = "email_addresses" :=
  ⟨assertUser_first_effect env email name ls t hp, rfl, rfl⟩

/-- Witness for C4 at `"jon@foo.com"`, which the replace-based encoding would
have changed to `"jon%40foo.com"`. -/
theorem assertUser_email_passthrough_witness :
    ((assertUser envAllOk "jon@foo.com" "Jane Doe"
        "April 19, 2024, 1:19 PM").1.head? =
      some (.putPeopleRecords
        (personPayload "jon@foo.com" "Jane Doe" (toISOString 1713532740000))
        putOpts)
    ∧ (personPayload "jon@foo.com" "Jane Doe"
        (toISOString 1713532740000)).data.values.email_addresses =
        [{ email_address := "jon@foo.com" }]
    ∧ putOpts.matching_attribute = "email_addresses")
    ∧ jsReplaceFirst "jon@foo.com" "@" "%40" = "jon%40foo.com" :=
  ⟨assertUser_email_passthrough envAllOk "jon@foo.com" "Jane Doe"
      "April 19, 2024, 1:19 PM" 1713532740000 rfl, rfl⟩

/-- Claim C5 counterexample: for `name = "Anne Marie Smith"` the payload
`assertUser` sends has `last_name = some "Marie"` — the second
space-delimited token — and not the entire remainder `"Marie Smith"` after
the first space, refuting the claim at this concrete input. -/
theorem assertUser_split_remainder_cex :
    (assertUser envAllOk "ams@foo.com" "Anne Marie Smith"
        "April 19, 2024, 1:19 PM").1.head? =
      some (.putPeopleRecords
        (personPayload "ams@foo.com" "Anne Marie Smith"
          (toISOString 1713532740000)) putOpts)
    ∧ (personPayload "ams@foo.com" "Anne Marie Smith"
        (toISOString 1713532740000)).data.values.name =
        [{ full_name := "Anne Marie Smith", first_name := "Anne",
           last_name := some "Marie" }]
    ∧ (personPayload "ams@foo.com" "Anne Marie Smith"
        (toISOString 1713532740000)).data.values.name ≠
        [{ full_name := "Anne Marie Smith", first_name := "Anne",
           last_name := some "Marie Smith" }] :=
  ⟨rfl, rfl, by decide⟩

/-- Claim C5 as amended: for every name whose space-split has at least two
chunks, `first_name` is the chunk before the first space and `last_name` is
the second chunk (the text between the first space and the next one), not
the entire remainder of the string. -/
theorem assertUser_split_second_token (env : ApiEnv)
    (email name ls : String) (t : Int) (a b : String) (rest : List String)
    (hp : env.parseDate ls = some t)
    (hsplit : jsSplitSpace name = a :: b :: rest) :
    (assertUser env email name ls).1.head? =
      some (.putPeopleRecords (personPayload email name (toISOString t))
        putOpts)
    ∧ (personPayload email name (toISOString t)).data.values.name =
        [{ full_name := name, first_name := a, last_name := some b }] := by
  refine ⟨assertUser_first_effect env email name ls t hp, ?_⟩
  simp [personPayload, hsplit]

/-- Witness for the amended C5 at `"Anne Marie Smith"`, whose space-split is
`["Anne", "Marie", "Smith"]`. -/
theorem assertUser_split_second_token_witness :
    (assertUser envAllOk "ams@foo.com" "Anne Marie Smith"
        "April 19, 2024, 1:19 PM").1.head? =
      some (.putPeopleRecords
        (personPayload "ams@foo.com" "Anne Marie Smith"
          (toISOString 1713532740000)) putOpts)
    ∧ (personPayload "ams@foo.com" "Anne Marie Smith"
        (toISOString 1713532740000)).data.values.name =
        [{ full_name := "Anne Marie Smith", first_name := "Anne",
           last_name := some "Marie" }] :=
  assertUser_split_second_token envAllOk "ams@foo.com" "Anne Marie Smith"
    "April 19, 2024, 1:19 PM" 1713532740000 "Anne" "Marie" ["Smith"]
    rfl (by decide)

/-- Claim C6: for every parseable `last_session` the payload's
`last_session.value` is exactly `toISOString` of the parsed time value (the
ECMA-262 UTC ISO-8601 serialization), and in particular a host that parses
`"April 19, 2024, 1:19 PM"` to 2024-04-19T13:19 UTC yields the string
`"2024-04-19T13:19:00.000Z"`. -/
theorem assertUser_last_session_iso (env : ApiEnv)
    (email name ls : String) (t : Int)
    (hp : env.parseDate ls = some t) :
    (assertUser env email name ls).1.head? =
      some (.putPeopleRecords (personPayload email name (toISOString t))
        putOpts)
    ∧ (personPayload email name
        (toISOString t)).data.values.last_session.value = toISOString t
    ∧ toISOString 1713532740000 = "2024-04-19T13:19:00.000Z" :=
  ⟨assertUser_first_effect env email name ls t hp, rfl, rfl⟩

/-- Witness for C6 on the concrete host at the spec's example timestamp. -/
theorem assertUser_last_session_iso_witness :
    (assertUser envAllOk "jon@foo.com" "Jane Doe"
        "April 19, 2024, 1:19 PM").1.head? =
      some (.putPeopleRecords
        (personPayload "jon@foo.com" "Jane Doe" (toISOString 1713532740000))
        putOpts)
    ∧ (personPayload "jon@foo.com" "Jane Doe"
        (toISOString 1713532740000)).data.values.last_session.value =
        toISOString 1713532740000
    ∧ toISOString 1713532740000 = "2024-04-19T13:19:00.000Z" :=
  assertUser_last_session_iso envAllOk "jon@foo.com" "Jane Doe"
    "April 19, 2024, 1:19 PM" 1713532740000 rfl

/-- Claim C7: whatever the environment, the batch entry point resolves the
unbound identifier `users` and fails with a ReferenceError having performed
no effect at all — in particular no `assertUser` upsert call — so no user
record is ever processed. -/
theorem runBatch_users_unbound (env : ApiEnv) :
    runBatch env = ([], .referenceError "users") := rfl

/-- Claim C8: a rejection of the create/delete/query company calls is not
caught inside the helper — the helper's outcome is the thrown rejection,
which propagates to the caller — whereas the upsert path of `assertUser`
absorbs its rejection and returns `undefined`. -/
theorem helper_failures_uncaught (env : ApiEnv)
    (cname domain id email uname ls : String) (t : Int) (e : ApiError) :
    (env.postCompaniesRecords (companyPayload cname domain) = .error e →
      (createCompany env cname domain).2 = .thrown (.apiError e))
    ∧ (env.deleteCompaniesRecord id = .error e →
      (deleteCompany env id).2 = .thrown (.apiError e))
    ∧ (env.postCompaniesQuery = .error e →
      (fetchCompanies env).2 = .thrown (.apiError e))
    ∧ (env.parseDate ls = some t →
      env.putPeopleRecords (personPayload email uname (toISOString t))
        putOpts = .error e →
      (assertUser env email uname ls).2 = .returned none) := by
  refine ⟨?_, ?_, ?_, ?_⟩
  · intro h
    simp [createCompany, h]
  · intro h
    simp [deleteCompany, h]
  · intro h
    simp [fetchCompanies, h]
  · intro hp hput
    simp [assertUser, hp, hput]

/-- Witness for C8 on the all-rejecting host: the three company helpers
throw the simulated rejection while `assertUser` returns `undefined`. -/
theorem helper_failures_uncaught_witness :
    ((createCompany envAllFail "Nike" "nike.com").2 =
      .thrown (.apiError errSimulated))
    ∧ ((deleteCompany envAllFail
        "3db23152-96e1-42b2-abb4-a8b9309ff56f").2 =
      .thrown (.apiError errSimulated))
    ∧ ((fetchCompanies envAllFail).2 = .thrown (.apiError errSimulated))
    ∧ ((assertUser envAllFail "jon@foo.com" "Jane Doe"
        "April 19, 2024, 1:19 PM").2 = .returned none) :=
  let h := helper_failures_uncaught envAllFail "Nike" "nike.com"
    "3db23152-96e1-42b2-abb4-a8b9309ff56f" "jon@foo.com" "Jane Doe"
    "April 19, 2024, 1:19 PM" 1713532740000 errSimulated
  ⟨h.1 rfl, h.2.1 rfl, h.2.2.1 rfl, h.2.2.2 rfl rfl⟩

/-- Claim C9: when the company query resolves, `fetchCompanies` performs
exactly two effects — the single query, then one file write of the
response's `data.data` array rendered by `JSON.stringify(_, null, 2)` to the
fixed path `./out/companies.json` — and returns `undefined`. -/
theorem fetchCompanies_single_query_write (env : ApiEnv)
    (res : CompaniesQueryResponse)
    (h : env.postCompaniesQuery = .ok res) :
    fetchCompanies env =
      ([.postCompaniesQuery,
        .writeFileSync "./out/companies.json" (jsonStringify2 res.data.data)],
       .returned none) := by
  simp [fetchCompanies, h]

/-- Witness for C9 on the concrete host, with the one-record sample listing
rendered with 2-space indentation. -/
theorem fetchCompanies_single_query_write_witness :
    fetchCompanies envAllOk =
      ([.postCompaniesQuery,
        .writeFileSync "./out/companies.json"
          (jsonStringify2 sampleQueryResponse.data.data)],
       .returned none)
    ∧ jsonStringify2 sampleQueryResponse.data.data =
        "[\n  \x7b\n    \"name\": \"Nike\"\n  \x7d\n]" :=
  ⟨fetchCompanies_single_query_write envAllOk sampleQueryResponse rfl, rfl⟩

/-- Claim C10: when the SDK call resolves, `createCompany` and
`deleteCompany` log the full response to the console and return `undefined`
(`none`), regardless of the response's content, so a caller can never
observe the API result through the return value. -/
theorem createDeleteCompany_return_undefined (env : ApiEnv)
    (cname domain id : String) (resC resD : Json) :
    (env.postCompaniesRecords (companyPayload cname domain) = .ok resC →
      createCompany env cname domain =
        ([.postCompaniesRecords (companyPayload cname domain),
          .consoleLog (some resC)],
         .returned none))
    ∧ (env.deleteCompaniesRecord id = .ok resD →
      deleteCompany env id =
        ([.deleteCompaniesRecord id, .consoleLog (some resD)],
         .returned none)) := by
  constructor
  · intro h
    simp [createCompany, h]
  · intro h
    simp [deleteCompany, h]

/-- Witness for C10 on the all-resolving host. -/
theorem createDeleteCompany_return_undefined_witness :
    (createCompany envAllOk "Nike" "nike.com" =
      ([.postCompaniesRecords (companyPayload "Nike" "nike.com"),
        .consoleLog (some okResponse)],
       .returned none))
    ∧ (deleteCompany envAllOk "3db23152-96e1-42b2-abb4-a8b9309ff56f" =
      ([.deleteCompaniesRecord "3db23152-96e1-42b2-abb4-a8b9309ff56f",
        .consoleLog (some okResponse)],
       .returned none)) :=
  let h := createDeleteCompany_return_undefined envAllOk "Nike" "nike.com"
    "3db23152-96e1-42b2-abb4-a8b9309ff56f" okResponse okResponse
  ⟨h.1 rfl, h.2 rfl⟩

end Attio
